import Mathlib

/-!
Verification development for `cve202344487.py`, an HTTP/2 Rapid Reset
(CVE-2023-44487) scanner.  The three core operations are shallowly embedded:

* `extract_hostname_port_uri` — the target resolver, built on a model of the
  relevant semantics of Python's `urllib.parse.urlparse` (scheme split, netloc
  split, fragment/query stripping, hostname lowering, and the raising `port`
  accessor with its 0–65535 range check).  IPv6 bracket handling and the
  `;params` split are not modelled (no claim touches them).
* `check_http2_support` — the negotiation prober; the single `httpx` request is
  modelled by an environment value carrying either the negotiated
  `http_version` string or the exception message.
* `send_rst_stream_h2` — the frame-level reset prober; the socket and the `h2`
  protocol-state object are modelled by an environment carrying the outcome of
  the connection phase, the result of the first `recv` (every branch of the
  receive loop body either breaks or returns, so at most one read is ever
  consumed), and the value `get_next_available_stream_id` would return.
  The result record tracks, besides the returned `(status, message)` pair, the
  observable effects: which stream ids `reset_stream` was called with, how many
  flushes followed a reset, how many reads were performed, whether
  `conn.close()` ran, and the shape of the connection that was built.
-/

namespace CVE202344487

/-! ## Model of `urllib.parse.urlparse` (the parts the resolver uses) -/

/-- Characters CPython allows inside a URL scheme (`scheme_chars`). -/
def isSchemeChar (c : Char) : Bool :=
  c.isAlpha || c.isDigit || c = '+' || c = '-' || c = '.'

/-- Split a character list at the first occurrence of `c`; `none` if absent. -/
def splitAtFirst (c : Char) : List Char → Option (List Char × List Char)
  | [] => none
  | x :: xs =>
    if x = c then some ([], xs)
    else
      match splitAtFirst c xs with
      | some (a, b) => some (x :: a, b)
      | none => none

/-- CPython `urlsplit`: the text before the first `:` is a scheme when it is
nonempty, starts with an ASCII letter and uses only scheme characters; the
scheme is lowercased.  Returns `(scheme, remainder)`. -/
def splitScheme (s : List Char) : List Char × List Char :=
  match splitAtFirst ':' s with
  | some (c :: pre, post) =>
    if c.isAlpha && (c :: pre).all isSchemeChar then
      ((c :: pre).map Char.toLower, post)
    else ([], s)
  | _ => ([], s)

/-- CPython `_splitnetloc`: after a leading `//`, the netloc runs until the
first `/`, `?` or `#`.  Returns `(netloc, remainder)`. -/
def splitNetloc (s : List Char) : List Char × List Char :=
  match s with
  | '/' :: '/' :: rest =>
    (rest.takeWhile (fun c => !(c = '/' || c = '?' || c = '#')),
     rest.dropWhile (fun c => !(c = '/' || c = '?' || c = '#')))
  | _ => ([], s)

/-- Drop everything from the first occurrence of `c` on (fragment / query). -/
def stripFrom (c : Char) (s : List Char) : List Char :=
  match splitAtFirst c s with
  | some (a, _) => a
  | none => s

/-- CPython `_hostinfo`: the host information is the part of the netloc after
the last `@` (userinfo is discarded). -/
def afterLastAt (s : List Char) : List Char :=
  (s.reverse.takeWhile (fun c => c ≠ '@')).reverse

/-- CPython `_hostinfo`, continued: split host from the raw port text at the
first `:`; an empty port text counts as absent. -/
def hostPortSplit (netloc : List Char) : List Char × Option (List Char) :=
  match splitAtFirst ':' (afterLastAt netloc) with
  | some (h, p) => (h, if p.isEmpty then none else some p)
  | none => (afterLastAt netloc, none)

/-- The fields of a CPython `ParseResult` that `extract_hostname_port_uri`
reads.  `hostname` is `none` when the host text is empty (CPython returns
`None`), otherwise the lowercased host. -/
structure UrlParts where
  scheme : String
  netloc : String
  hostname : Option String
  portStr : Option String
  path : String
deriving DecidableEq

/-- Model of `urllib.parse.urlparse` restricted to scheme, netloc, hostname,
raw port text and path. -/
def urlparse (url : String) : UrlParts :=
  let (sch, rest) := splitScheme url.toList
  let (netloc, rest2) := splitNetloc rest
  let path := stripFrom '?' (stripFrom '#' rest2)
  let (h, p) := hostPortSplit netloc
  { scheme := ⟨sch⟩
    netloc := ⟨netloc⟩
    hostname := if h.isEmpty then none else some ⟨h.map Char.toLower⟩
    portStr := p.map (fun l => ⟨l⟩)
    path := ⟨path⟩ }

/-- `int(s, 10)` on an all-digit string; `none` on empty or non-digit input.
(Signs, underscores and surrounding whitespace, which CPython's `int` also
accepts, are not modelled.) -/
def decDigits (s : List Char) : Option Nat :=
  if s.isEmpty || !s.all Char.isDigit then none
  else some (s.foldl (fun n c => 10 * n + (c.toNat - 48)) 0)

/-- CPython's raising `port` accessor on a present port text: cast to an
integer, then enforce the range 0–65535; failures raise `ValueError`,
modelled as `Except.error`. -/
def parsePort (s : List Char) : Except String Nat :=
  match decDigits s with
  | none => .error "Port could not be cast to integer value"
  | some n => if n ≤ 65535 then .ok n else .error "Port out of range 0-65535"

/-- `parsed_url.port`: `none` when no port text is present, otherwise the
checked numeric port; `Except.error` models the raised `ValueError`. -/
def urlPort (u : UrlParts) : Except String (Option Nat) :=
  match u.portStr with
  | none => .ok none
  | some s => (parsePort s.toList).map some

/-! ## The target resolver `extract_hostname_port_uri` -/

/-- The three shapes of value `extract_hostname_port_uri` returns:
the invalid sentinel `(-1, -1, "")`, a single resolved port
`(hostname, port, uri)`, or the ambiguous pair `(hostname, (80, 443), uri)`. -/
inductive ExtractResult where
  | sentinel : ExtractResult
  | onePort (hostname : String) (port : Nat) (uri : String) : ExtractResult
  | twoPorts (hostname : String) (uri : String) : ExtractResult
deriving DecidableEq

/-- The uri component of a resolver result (`""` for the sentinel). -/
def ExtractResult.uri : ExtractResult → String
  | .sentinel => ""
  | .onePort _ _ u => u
  | .twoPorts _ u => u

/-- Embedding of `extract_hostname_port_uri` (lines 179–212).  The `port`
accessor is evaluated first because the Python reads it at line 192 before any
check, so its `ValueError` reaches the handler at line 211 and yields the
sentinel.  `if port:` is Python truthiness: `None` and `0` both fall through
to the scheme defaults. -/
def extract_hostname_port_uri (url : String) : ExtractResult :=
  let p := urlparse url
  match urlPort p with
  | .error _ => .sentinel
  | .ok port =>
    let uri := if p.path = "" then "/" else p.path
    match p.hostname with
    | none => .sentinel
    | some h =>
      let byScheme : ExtractResult :=
        if p.scheme = "http" then .onePort h 80 uri
        else if p.scheme = "https" then .onePort h 443 uri
        else .twoPorts h uri
      match port with
      | some pt => if pt ≠ 0 then .onePort h pt uri else byScheme
      | none => byScheme

/-! ## The negotiation prober `check_http2_support` -/

/-- Environment for the single `httpx` GET (lines 80–81): either the request
succeeds and the response reports `http_version`, or it raises with a
message. -/
inductive HttpxOutcome where
  | success (http_version : String) : HttpxOutcome
  | failure (msg : String) : HttpxOutcome
deriving DecidableEq

/-- Embedding of `check_http2_support` (lines 53–88): exact comparison of the
negotiated version with `"HTTP/2"`; any exception is caught and converted to
`(-1, "check_http2_support - " ++ e)`. -/
def check_http2_support (url : String) (env : HttpxOutcome) : Int × String :=
  match env with
  | .failure e => (-1, "check_http2_support - " ++ e)
  | .success v => if v = "HTTP/2" then (1, "") else (0, v)

/-! ## The frame-level reset prober `send_rst_stream_h2` -/

/-- Shape of the connection built at lines 113–126: whether `set_tunnel` was
called (a proxy is in play) and whether the connection is an `HTTPSConnection`
carrying the `ssl_context` of lines 109–111 (`check_hostname = False`,
`verify_mode = CERT_NONE`). -/
structure ConnSetup where
  tunneled : Bool
  useTLS : Bool
  checkHostname : Bool
  certRequired : Bool
deriving DecidableEq

/-- Embedding of the connection-construction branch (lines 113–126): a proxy
counts only when it is a non-empty string; TLS (with the verification-disabled
context) is selected exactly by the test `port == 443`, in both the proxied
and the direct branch. -/
def connSetup (proxy : Option String) (port : Nat) : ConnSetup :=
  let usesProxy : Bool := match proxy with
    | some p => p ≠ ""
    | none => false
  if usesProxy then
    if port = 443 then ⟨true, true, false, false⟩
    else ⟨true, false, false, false⟩
  else
    if port = 443 then ⟨false, true, false, false⟩
    else ⟨false, false, false, false⟩

/-- An event yielded by `h2_conn.receive_data`: the loop at lines 149–155 only
inspects `hasattr(event, 'stream_id')` and the `stream_id` value. -/
structure H2Event where
  hasStreamId : Bool
  streamId : Nat
deriving DecidableEq

/-- Result of the first `conn.sock.recv(65535)` at line 143: the call raises
(e.g. a timeout), returns zero bytes (peer closed), or returns data that
`receive_data` turns into a list of events.  Only the first read matters:
every branch of the loop body either breaks or returns. -/
inductive FirstRead where
  | recvErr (msg : String) : FirstRead
  | closed : FirstRead
  | dataRead (events : List H2Event) : FirstRead
deriving DecidableEq

/-- Environment of one `send_rst_stream_h2` invocation: whether the
connect/preface/headers phase (lines 108–139) raises, the first read, and the
value `h2_conn.get_next_available_stream_id()` returns at line 162
(`0` is the "no id" sentinel of the claim). -/
structure ProbeEnv where
  connectFail : Option String
  firstRead : FirstRead
  availableId : Nat
deriving DecidableEq

/-- Observable outcome of one `send_rst_stream_h2` invocation: the returned
`(status, message)` pair plus the effect trace — the stream ids passed to
`reset_stream` in order, the number of `conn.send(h2_conn.data_to_send())`
flushes issued right after a reset, the number of `recv` calls, whether
`conn.close()` ran before returning, and the connection shape (absent when the
connect phase raised). -/
structure ProbeResult where
  status : Int
  message : String
  resets : List Nat
  resetFlushes : Nat
  readsPerformed : Nat
  connClosed : Bool
  conn : Option ConnSetup
deriving DecidableEq

/-- The test of lines 150–151: the event has a `stream_id` attribute and it
equals the target stream id. -/
def eventMatches (stream_id : Nat) (ev : H2Event) : Bool :=
  ev.hasStreamId && ev.streamId == stream_id

/-- Embedding of `send_rst_stream_h2` (lines 90–177).  Branches, in source
order: an exception before the loop is caught at line 176; a raising `recv`
is caught there too; zero bytes break the loop to `conn.close()` and
`(0, "No response")` (lines 144–145, 174–175); the first event matching the
target stream is reset and `(1, "")` returned (lines 149–158); otherwise the
fallback resets stream 1 when no stream id is available, returning status 0
with the degraded message (lines 162–167), or resets the available id and
returns `(1, "")` (lines 168–172).  No early return or exception path calls
`conn.close()`. -/
def send_rst_stream_h2 (host : String) (port : Nat) (stream_id : Nat)
    (uri_path : String) (proxy : Option String) (env : ProbeEnv) : ProbeResult :=
  match env.connectFail with
  | some e =>
    { status := -1, message := "send_rst_stream_h2 - " ++ e,
      resets := [], resetFlushes := 0, readsPerformed := 0,
      connClosed := false, conn := none }
  | none =>
    let cs := connSetup proxy port
    match env.firstRead with
    | .recvErr e =>
      { status := -1, message := "send_rst_stream_h2 - " ++ e,
        resets := [], resetFlushes := 0, readsPerformed := 1,
        connClosed := false, conn := some cs }
    | .closed =>
      { status := 0, message := "No response",
        resets := [], resetFlushes := 0, readsPerformed := 1,
        connClosed := true, conn := some cs }
    | .dataRead events =>
      match events.find? (eventMatches stream_id) with
      | some ev =>
        { status := 1, message := "",
          resets := [ev.streamId], resetFlushes := 1, readsPerformed := 1,
          connClosed := false, conn := some cs }
      | none =>
        if env.availableId = 0 then
          { status := 0,
            message := "Able to send RST_STREAM to stream 1 but could not find any available stream ids",
            resets := [1], resetFlushes := 1, readsPerformed := 1,
            connClosed := false, conn := some cs }
        else
          { status := 1, message := "",
            resets := [env.availableId], resetFlushes := 1, readsPerformed := 1,
            connClosed := false, conn := some cs }

/-! ## Helper lemmas -/

/-- If some element of `l` satisfies `p`, then `l.find? p` returns an element
that satisfies `p`. -/
theorem exists_find?_eq_some_of_mem {α : Type} {p : α → Bool} {l : List α} {x : α}
    (hx : x ∈ l) (hp : p x = true) :
    ∃ y, l.find? p = some y ∧ p y = true := by
  have hs : (l.find? p).isSome := List.find?_isSome.mpr ⟨x, hx, hp⟩
  obtain ⟨y, hy⟩ := Option.isSome_iff_exists.mp hs
  exact ⟨y, hy, List.find?_some hy⟩

/-! ## Claim theorems -/

/-- C3: on a successful request the negotiation prober returns status 1 iff the
negotiated version string is exactly `"HTTP/2"`; any other version yields
`(0, version)`; an exception yields `(-1, message)`. -/
theorem C3_negotiation_classification (url v e : String) :
    ((check_http2_support url (.success v)).1 = 1 ↔ v = "HTTP/2") ∧
    (v ≠ "HTTP/2" → check_http2_support url (.success v) = (0, v)) ∧
    check_http2_support url (.failure e) = (-1, "check_http2_support - " ++ e) := by
  refine ⟨?_, ?_, rfl⟩
  · by_cases h : v = "HTTP/2" <;> simp [check_http2_support, h]
  · intro h
    simp [check_http2_support, h]

/-- C3 witness: negotiation against an HTTP/1.1-only server is classified as a
downgrade, never as HTTP/2 support. -/
theorem C3_negotiation_witness :
    check_http2_support "https://example.com" (.success "HTTP/1.1") = (0, "HTTP/1.1") :=
  (C3_negotiation_classification "https://example.com" "HTTP/1.1" "boom").2.1 (by decide)

/-- C5: a zero-byte read (peer closed) before any reset was sent makes the
reset prober leave the loop and return `(0, "No response")`, with no
`reset_stream` call issued. -/
theorem C5_peer_closed_no_response (host : String) (port stream_id : Nat)
    (uri_path : String) (proxy : Option String) (env : ProbeEnv)
    (hc : env.connectFail = none) (hr : env.firstRead = .closed) :
    (send_rst_stream_h2 host port stream_id uri_path proxy env).status = 0 ∧
    (send_rst_stream_h2 host port stream_id uri_path proxy env).message = "No response" ∧
    (send_rst_stream_h2 host port stream_id uri_path proxy env).resets = [] := by
  simp [send_rst_stream_h2, hc, hr]

/-- C5 witness: the peer-closed branch evaluated on a concrete environment. -/
theorem C5_peer_closed_witness :
    ({ connectFail := none, firstRead := .closed, availableId := 0 : ProbeEnv }).connectFail = none ∧
    (send_rst_stream_h2 "example.com" 443 1 "/" none
        { connectFail := none, firstRead := .closed, availableId := 0 }).status = 0 ∧
    (send_rst_stream_h2 "example.com" 443 1 "/" none
        { connectFail := none, firstRead := .closed, availableId := 0 }).message = "No response" ∧
    (send_rst_stream_h2 "example.com" 443 1 "/" none
        { connectFail := none, firstRead := .closed, availableId := 0 }).resets = [] :=
  ⟨rfl, C5_peer_closed_no_response "example.com" 443 1 "/" none
    { connectFail := none, firstRead := .closed, availableId := 0 } rfl rfl⟩

/-- C1 counterexample: with a read whose events miss the target stream and the
"no id" sentinel from `get_next_available_stream_id`, the prober does reset
stream 1 but returns status 0, not the claimed status 1. -/
theorem C1_counterexample :
    (send_rst_stream_h2 "example.com" 443 1 "/" none
        { connectFail := none,
          firstRead := .dataRead [{ hasStreamId := true, streamId := 3 }],
          availableId := 0 }).status ≠ 1 ∧
    (send_rst_stream_h2 "example.com" 443 1 "/" none
        { connectFail := none,
          firstRead := .dataRead [{ hasStreamId := true, streamId := 3 }],
          availableId := 0 }).resets = [1] := by
  decide

/-- C1 amended: when a read's events contain no event for the target stream and
no stream id is available (sentinel 0), the prober resets stream 1, flushes
once, and returns status 0 — not 1 — with the degraded-confidence message. -/
theorem C1_fallback_status_zero (host : String) (port stream_id : Nat)
    (uri_path : String) (proxy : Option String) (env : ProbeEnv)
    (evs : List H2Event)
    (hc : env.connectFail = none) (hr : env.firstRead = .dataRead evs)
    (hmiss : ∀ ev ∈ evs, eventMatches stream_id ev = false)
    (hav : env.availableId = 0) :
    (send_rst_stream_h2 host port stream_id uri_path proxy env).status = 0 ∧
    (send_rst_stream_h2 host port stream_id uri_path proxy env).resets = [1] ∧
    (send_rst_stream_h2 host port stream_id uri_path proxy env).resetFlushes = 1 ∧
    (send_rst_stream_h2 host port stream_id uri_path proxy env).message =
      "Able to send RST_STREAM to stream 1 but could not find any available stream ids" := by
  have hfind : evs.find? (eventMatches stream_id) = none := by
    rw [List.find?_eq_none]
    intro x hx
    simp [hmiss x hx]
  simp [send_rst_stream_h2, hc, hr, hfind, hav]

/-- C1 amended witness: the fallback branch evaluated on a concrete
environment. -/
theorem C1_fallback_witness :
    (∀ ev ∈ [({ hasStreamId := true, streamId := 3 } : H2Event)],
        eventMatches 1 ev = false) ∧
    (send_rst_stream_h2 "example.com" 443 1 "/" none
        { connectFail := none,
          firstRead := .dataRead [{ hasStreamId := true, streamId := 3 }],
          availableId := 0 }).status = 0 ∧
    (send_rst_stream_h2 "example.com" 443 1 "/" none
        { connectFail := none,
          firstRead := .dataRead [{ hasStreamId := true, streamId := 3 }],
          availableId := 0 }).resets = [1] ∧
    (send_rst_stream_h2 "example.com" 443 1 "/" none
        { connectFail := none,
          firstRead := .dataRead [{ hasStreamId := true, streamId := 3 }],
          availableId := 0 }).resetFlushes = 1 ∧
    (send_rst_stream_h2 "example.com" 443 1 "/" none
        { connectFail := none,
          firstRead := .dataRead [{ hasStreamId := true, streamId := 3 }],
          availableId := 0 }).message =
      "Able to send RST_STREAM to stream 1 but could not find any available stream ids" :=
  ⟨by decide,
   C1_fallback_status_zero "example.com" 443 1 "/" none
     { connectFail := none,
       firstRead := .dataRead [{ hasStreamId := true, streamId := 3 }],
       availableId := 0 }
     [{ hasStreamId := true, streamId := 3 }] rfl rfl (by decide) rfl⟩

/-- C9 counterexample: on the successful-reset exit path the probe returns with
the connection not closed, refuting release on every exit path. -/
theorem C9_counterexample :
    (send_rst_stream_h2 "example.com" 443 1 "/" none
        { connectFail := none,
          firstRead := .dataRead [{ hasStreamId := true, streamId := 1 }],
          availableId := 5 }).status = 1 ∧
    (send_rst_stream_h2 "example.com" 443 1 "/" none
        { connectFail := none,
          firstRead := .dataRead [{ hasStreamId := true, streamId := 1 }],
          availableId := 5 }).connClosed = false := by
  decide

/-- C9 amended: `conn.close()` runs before the probe returns exactly on the
peer-closed loop exit (connect phase succeeded and the first read returned
zero bytes); every early return and the exception path leave the connection
unclosed. -/
theorem C9_close_iff_peer_closed (host : String) (port stream_id : Nat)
    (uri_path : String) (proxy : Option String) (env : ProbeEnv) :
    (send_rst_stream_h2 host port stream_id uri_path proxy env).connClosed = true ↔
      (env.connectFail = none ∧ env.firstRead = .closed) := by
  obtain ⟨cf, fr, av⟩ := env
  cases cf with
  | some e => simp [send_rst_stream_h2]
  | none =>
    cases fr with
    | recvErr e => simp [send_rst_stream_h2]
    | closed => simp [send_rst_stream_h2]
    | dataRead evs =>
      cases hf : evs.find? (eventMatches stream_id) with
      | some ev => simp [send_rst_stream_h2, hf]
      | none =>
        by_cases hav : av = 0 <;> simp [send_rst_stream_h2, hf, hav]

/-- C10: when the port accessor raises (out-of-range explicit port), the
resolver returns the invalid sentinel. -/
theorem C10_out_of_range_port_sentinel (url e : String)
    (h : urlPort (urlparse url) = .error e) :
    extract_hostname_port_uri url = .sentinel := by
  simp [extract_hostname_port_uri, h]

/-- C10 witness: `"https://example.com:99999/"` has an out-of-range explicit
port, and the resolver maps it to the sentinel. -/
theorem C10_out_of_range_witness :
    urlPort (urlparse "https://example.com:99999/") = .error "Port out of range 0-65535" ∧
    extract_hostname_port_uri "https://example.com:99999/" = .sentinel :=
  ⟨rfl, C10_out_of_range_port_sentinel "https://example.com:99999/"
    "Port out of range 0-65535" rfl⟩

/-- C4: if some event of the first read carries a stream id equal to the
target, the prober issues exactly one `reset_stream` — for the target stream —
flushes it, and returns `(1, "")` after that single read. -/
theorem C4_trigger_reset (host : String) (port stream_id : Nat)
    (uri_path : String) (proxy : Option String) (env : ProbeEnv)
    (evs : List H2Event) (ev : H2Event)
    (hc : env.connectFail = none) (hr : env.firstRead = .dataRead evs)
    (hmem : ev ∈ evs) (hhas : ev.hasStreamId = true) (hid : ev.streamId = stream_id) :
    (send_rst_stream_h2 host port stream_id uri_path proxy env).status = 1 ∧
    (send_rst_stream_h2 host port stream_id uri_path proxy env).message = "" ∧
    (send_rst_stream_h2 host port stream_id uri_path proxy env).resets = [stream_id] ∧
    (send_rst_stream_h2 host port stream_id uri_path proxy env).resetFlushes = 1 ∧
    (send_rst_stream_h2 host port stream_id uri_path proxy env).readsPerformed = 1 := by
  have hpx : eventMatches stream_id ev = true := by
    simp [eventMatches, hhas, hid]
  obtain ⟨y, hy, hpy⟩ := exists_find?_eq_some_of_mem hmem hpx
  have hysid : y.streamId = stream_id := by
    simp only [eventMatches, Bool.and_eq_true, beq_iff_eq] at hpy
    exact hpy.2
  simp [send_rst_stream_h2, hc, hr, hy, hysid]

/-- C4 witness: the trigger branch evaluated on a concrete environment where
the second event of the read matches the target stream. -/
theorem C4_trigger_reset_witness :
    (({ hasStreamId := true, streamId := 1 } : H2Event) ∈
        [({ hasStreamId := false, streamId := 0 } : H2Event),
         { hasStreamId := true, streamId := 1 }]) ∧
    (send_rst_stream_h2 "example.com" 443 1 "/" none
        { connectFail := none,
          firstRead := .dataRead
            [{ hasStreamId := false, streamId := 0 },
             { hasStreamId := true, streamId := 1 }],
          availableId := 5 }).status = 1 ∧
    (send_rst_stream_h2 "example.com" 443 1 "/" none
        { connectFail := none,
          firstRead := .dataRead
            [{ hasStreamId := false, streamId := 0 },
             { hasStreamId := true, streamId := 1 }],
          availableId := 5 }).message = "" ∧
    (send_rst_stream_h2 "example.com" 443 1 "/" none
        { connectFail := none,
          firstRead := .dataRead
            [{ hasStreamId := false, streamId := 0 },
             { hasStreamId := true, streamId := 1 }],
          availableId := 5 }).resets = [1] ∧
    (send_rst_stream_h2 "example.com" 443 1 "/" none
        { connectFail := none,
          firstRead := .dataRead
            [{ hasStreamId := false, streamId := 0 },
             { hasStreamId := true, streamId := 1 }],
          availableId := 5 }).resetFlushes = 1 ∧
    (send_rst_stream_h2 "example.com" 443 1 "/" none
        { connectFail := none,
          firstRead := .dataRead
            [{ hasStreamId := false, streamId := 0 },
             { hasStreamId := true, streamId := 1 }],
          availableId := 5 }).readsPerformed = 1 :=
  ⟨by decide,
   C4_trigger_reset "example.com" 443 1 "/" none
     { connectFail := none,
       firstRead := .dataRead
         [{ hasStreamId := false, streamId := 0 },
          { hasStreamId := true, streamId := 1 }],
       availableId := 5 }
     [{ hasStreamId := false, streamId := 0 }, { hasStreamId := true, streamId := 1 }]
     { hasStreamId := true, streamId := 1 }
     rfl rfl (by decide) rfl rfl⟩

/-- C2: each core operation is total over every environment and its status
component is always one of the defined variants: 1, 0 or −1 for the two
probers, and the sentinel / one-port / two-port shapes for the resolver. -/
theorem C2_total_and_typed (url : String) (hx : HttpxOutcome)
    (host : String) (port stream_id : Nat) (uri_path : String)
    (proxy : Option String) (env : ProbeEnv) (target : String) :
    ((check_http2_support url hx).1 = 1 ∨ (check_http2_support url hx).1 = 0 ∨
      (check_http2_support url hx).1 = -1) ∧
    ((send_rst_stream_h2 host port stream_id uri_path proxy env).status = 1 ∨
      (send_rst_stream_h2 host port stream_id uri_path proxy env).status = 0 ∨
      (send_rst_stream_h2 host port stream_id uri_path proxy env).status = -1) ∧
    (extract_hostname_port_uri target = .sentinel ∨
      (∃ h p u, extract_hostname_port_uri target = .onePort h p u) ∨
      (∃ h u, extract_hostname_port_uri target = .twoPorts h u)) := by
  refine ⟨?_, ?_, ?_⟩
  · cases hx with
    | failure e => exact Or.inr (Or.inr rfl)
    | success v => by_cases h : v = "HTTP/2" <;> simp [check_http2_support, h]
  · obtain ⟨cf, fr, av⟩ := env
    cases cf with
    | some e => simp [send_rst_stream_h2]
    | none =>
      cases fr with
      | recvErr e => simp [send_rst_stream_h2]
      | closed => simp [send_rst_stream_h2]
      | dataRead evs =>
        cases hf : evs.find? (eventMatches stream_id) with
        | some ev => simp [send_rst_stream_h2, hf]
        | none =>
          by_cases hav : av = 0 <;> simp [send_rst_stream_h2, hf, hav]
  · cases hE : extract_hostname_port_uri target with
    | sentinel => exact Or.inl rfl
    | onePort h p u => exact Or.inr (Or.inl ⟨h, p, u, rfl⟩)
    | twoPorts h u => exact Or.inr (Or.inr ⟨h, u, rfl⟩)

/-- C6: in every invocation of the reset prober, in both the direct and the
proxy-tunneled branch, the connection uses TLS (with the
hostname-check-disabled, certificate-validation-disabled context) exactly when
`port == 443`, and the connection the prober builds is the one `connSetup`
describes. -/
theorem C6_tls_iff_port443 (host : String) (port stream_id : Nat)
    (uri_path : String) (proxy : Option String) (env : ProbeEnv)
    (hc : env.connectFail = none) :
    ((connSetup proxy port).useTLS = true ↔ port = 443) ∧
    (connSetup proxy port).checkHostname = false ∧
    (connSetup proxy port).certRequired = false ∧
    (send_rst_stream_h2 host port stream_id uri_path proxy env).conn =
      some (connSetup proxy port) := by
  refine ⟨?_, ?_, ?_, ?_⟩
  · cases proxy with
    | none => by_cases h : port = 443 <;> simp [connSetup, h]
    | some p =>
      by_cases hp0 : p = "" <;> by_cases h : port = 443 <;> simp [connSetup, hp0, h]
  · cases proxy with
    | none => by_cases h : port = 443 <;> simp [connSetup, h]
    | some p =>
      by_cases hp0 : p = "" <;> by_cases h : port = 443 <;> simp [connSetup, hp0, h]
  · cases proxy with
    | none => by_cases h : port = 443 <;> simp [connSetup, h]
    | some p =>
      by_cases hp0 : p = "" <;> by_cases h : port = 443 <;> simp [connSetup, hp0, h]
  · obtain ⟨cf, fr, av⟩ := env
    cases cf with
    | some e => cases hc
    | none =>
      cases fr with
      | recvErr e => simp [send_rst_stream_h2]
      | closed => simp [send_rst_stream_h2]
      | dataRead evs =>
        cases hf : evs.find? (eventMatches stream_id) with
        | some ev => simp [send_rst_stream_h2, hf]
        | none =>
          by_cases hav : av = 0 <;> simp [send_rst_stream_h2, hf, hav]

/-- C6 witness: the direct, plaintext branch on a concrete environment. -/
theorem C6_tls_iff_port443_witness :
    ((connSetup none 80).useTLS = true ↔ (80 : Nat) = 443) ∧
    (connSetup none 80).checkHostname = false ∧
    (connSetup none 80).certRequired = false ∧
    (send_rst_stream_h2 "example.com" 80 1 "/" none
        { connectFail := none, firstRead := .closed, availableId := 0 }).conn =
      some (connSetup none 80) :=
  C6_tls_iff_port443 "example.com" 80 1 "/" none
    { connectFail := none, firstRead := .closed, availableId := 0 } rfl

/-- C7 counterexample: `"http://example.com:0/"` carries the explicit port 0
(its raw port text is `"0"`), yet the resolver returns the scheme default 80
instead of 0, because `if port:` treats 0 as falsy. -/
theorem C7_counterexample :
    extract_hostname_port_uri "http://example.com:0/" =
      .onePort "example.com" 80 "/" ∧
    (urlparse "http://example.com:0/").portStr = some "0" :=
  ⟨rfl, rfl⟩

/-- C7 amended: for every target whose parse yields a host and an explicit
port that is nonzero (and in range, so the accessor does not raise), the
resolver returns that port verbatim, with no condition on the scheme. -/
theorem C7_explicit_port_verbatim (url : String) (h : String) (pt : Nat)
    (hh : (urlparse url).hostname = some h)
    (hp : urlPort (urlparse url) = .ok (some pt))
    (hnz : pt ≠ 0) :
    extract_hostname_port_uri url =
      .onePort h pt
        (if (urlparse url).path = "" then "/" else (urlparse url).path) := by
  simp [extract_hostname_port_uri, hp, hh, hnz]

/-- C7 amended witness: an unknown scheme with an explicit port, returned
verbatim. -/
theorem C7_explicit_port_witness :
    (urlparse "foo://example.com:8080/x").hostname = some "example.com" ∧
    urlPort (urlparse "foo://example.com:8080/x") = .ok (some 8080) ∧
    extract_hostname_port_uri "foo://example.com:8080/x" =
      .onePort "example.com" 8080 "/x" :=
  ⟨rfl, rfl, by
    have h := C7_explicit_port_verbatim "foo://example.com:8080/x" "example.com" 8080
      rfl rfl (by decide)
    simpa using h⟩

/-- C8: the empty string and any parse with no host map to the invalid
sentinel, and a well-formed target whose parsed path is empty gets uri `"/"`. -/
theorem C8_invalid_sentinel_and_path (u1 u2 : String) (h : String) (pr : Option Nat)
    (h1 : (urlparse u1).hostname = none)
    (h2 : (urlparse u2).hostname = some h)
    (h3 : urlPort (urlparse u2) = .ok pr)
    (h4 : (urlparse u2).path = "") :
    extract_hostname_port_uri "" = .sentinel ∧
    extract_hostname_port_uri u1 = .sentinel ∧
    (extract_hostname_port_uri u2).uri = "/" := by
  refine ⟨rfl, ?_, ?_⟩
  · cases hE : urlPort (urlparse u1) with
    | error e => simp [extract_hostname_port_uri, hE]
    | ok port => simp [extract_hostname_port_uri, hE, h1]
  · cases pr with
    | none =>
      by_cases hs1 : (urlparse u2).scheme = "http"
      · simp [extract_hostname_port_uri, h3, h2, h4, hs1, ExtractResult.uri]
      · by_cases hs2 : (urlparse u2).scheme = "https" <;>
          simp [extract_hostname_port_uri, h3, h2, h4, hs1, hs2, ExtractResult.uri]
    | some pt =>
      by_cases hz : pt = 0
      · by_cases hs1 : (urlparse u2).scheme = "http"
        · simp [extract_hostname_port_uri, h3, h2, h4, hz, hs1, ExtractResult.uri]
        · by_cases hs2 : (urlparse u2).scheme = "https" <;>
            simp [extract_hostname_port_uri, h3, h2, h4, hz, hs1, hs2, ExtractResult.uri]
      · simp [extract_hostname_port_uri, h3, h2, h4, hz, ExtractResult.uri]

/-- C8 witness: `""` and `"notaurl"` resolve to the sentinel;
`"https://example.com"` has empty parsed path and gets uri `"/"`. -/
theorem C8_invalid_sentinel_witness :
    (urlparse "notaurl").hostname = none ∧
    (urlparse "https://example.com").hostname = some "example.com" ∧
    urlPort (urlparse "https://example.com") = .ok none ∧
    (urlparse "https://example.com").path = "" ∧
    extract_hostname_port_uri "" = .sentinel ∧
    extract_hostname_port_uri "notaurl" = .sentinel ∧
    (extract_hostname_port_uri "https://example.com").uri = "/" := by
  have h := C8_invalid_sentinel_and_path "notaurl" "https://example.com"
    "example.com" none rfl rfl rfl rfl
  exact ⟨rfl, rfl, rfl, rfl, h.1, h.2.1, h.2.2⟩

end CVE202344487
